import Mathlib

/-!
# Verification of the rust-data-science-pipeline statistics and charting code

Shallow embedding of `src/data_processing.rs` (`process_data`, `DataSummary`)
and `src/visualization.rs` (`create_charts`).  Numeric values (Rust `f64`) are
idealised as rationals `ℚ`, so the algebraic identities the code computes are
stated exactly; floating-point rounding is outside the model.

The dataframe operations that `process_data` delegates to the polars library
(`DataFrame::column`, `Series::cast`, `Series::mean`, `Series::var`) are
modelled explicitly, following polars semantics:
  * `cast` is the non-strict cast: a value that cannot be converted to
    `Float64` becomes null (only `strict_cast` errors per value);
  * `mean` returns `None` when the column has no non-null values;
  * `var(ddof)` returns `None` when the number of non-null values is ≤ `ddof`.
The `expect` calls in the Rust code turn those `None`s and the missing-column
error into process-aborting panics; the embedding surfaces them as an
`Except` error whose constructors follow the spec's error taxonomy
(`SchemaError` for the missing column, `InsufficientDataError` for the
mean/variance failures, which fire exactly when fewer than 2 values remain
after coercion).
-/

namespace Pipeline

/-- A raw cell of the input table, as polars would type it after CSV schema
inference: an integer, a float, or a text value. -/
inductive RawValue where
  | int (i : Int)
  | float (q : ℚ)
  | str (s : String)
deriving DecidableEq, Repr

/-- A polars `Series`: a named column whose cells are nullable (`none` is a
missing/null entry). -/
structure Series where
  name : String
  values : List (Option RawValue)
deriving DecidableEq, Repr

/-- A polars `DataFrame`: a list of named columns. -/
structure DataFrame where
  columns : List Series
deriving DecidableEq, Repr

/-- `DataFrame::column` — look a column up by name; `none` models the
`PolarsError` that `process_data` turns into its "Column not found" panic. -/
def DataFrame.column (df : DataFrame) (name : String) : Option Series :=
  df.columns.find? (fun s => s.name == name)

/-- Fold a list of decimal digit characters into a natural number. -/
def digitsToNat (ds : List Char) : Nat :=
  ds.foldl (fun acc c => acc * 10 + (c.toNat - Char.toNat (Char.ofNat 48))) 0

/-- Modelled from polars semantics: parsing a text value as `Float64` accepts
an optional sign, an integer part and an optional fractional part (at least
one digit overall) and fails — returning `none` — on anything else.
Exponent, `inf` and `NaN` forms are not representable in the rational
idealisation and are outside the model; no claim depends on them. -/
def parseFloat64 (s : String) : Option ℚ :=
  let cs := s.toList
  let signAndRest : ℚ × List Char :=
    match cs with
    | '-' :: t => (-1, t)
    | '+' :: t => (1, t)
    | _ => (1, cs)
  let sign := signAndRest.1
  let rest := signAndRest.2
  let intPart := rest.takeWhile Char.isDigit
  let afterInt := rest.dropWhile Char.isDigit
  match afterInt with
  | [] =>
    if intPart.isEmpty then none
    else some (sign * (digitsToNat intPart : ℚ))
  | '.' :: fracTail =>
    let fracPart := fracTail.takeWhile Char.isDigit
    let afterFrac := fracTail.dropWhile Char.isDigit
    if afterFrac.isEmpty && !(intPart.isEmpty && fracPart.isEmpty) then
      some (sign * ((digitsToNat intPart : ℚ) +
        (digitsToNat fracPart : ℚ) / (10 : ℚ) ^ fracPart.length))
    else none
  | _ => none

/-- Modelled from polars semantics: the per-value conversion performed by the
non-strict `Series::cast(&DataType::Float64)`.  Integers widen, floats pass
through, text is parsed; a value that cannot be converted yields `none`
(null) rather than an error. -/
def castValue : RawValue → Option ℚ
  | .int i => some (i : ℚ)
  | .float q => some q
  | .str s => parseFloat64 s

/-- `series.cast(&DataType::Float64)` applied to the cell list: nulls stay
null and each value goes through `castValue` (non-coercible values become
null).  The whole-column cast itself succeeds for every column a CSV can
produce, so the `expect("Failed to cast column to Float64")` site is
unreachable in this model. -/
def castFloat64 (s : Series) : List (Option ℚ) :=
  s.values.map (fun c => c.bind castValue)

/-- The non-null values of a nullable float column. -/
def nonNullValues (xs : List (Option ℚ)) : List ℚ :=
  xs.filterMap id

/-- Modelled from polars semantics: `Series::mean` returns `None` when there
are no non-null values, otherwise the sum of the non-null values divided by
their count. -/
def seriesMean (xs : List (Option ℚ)) : Option ℚ :=
  if (nonNullValues xs).length = 0 then none
  else some ((nonNullValues xs).sum / ((nonNullValues xs).length : ℚ))

/-- Modelled from polars semantics: `Series::var(ddof)` returns `None` when
the number of non-null values is ≤ `ddof`, otherwise the two-pass sample
variance `Σ (x_i − mean)² / (n − ddof)` over the non-null values. -/
def seriesVar (xs : List (Option ℚ)) (ddof : Nat) : Option ℚ :=
  if (nonNullValues xs).length ≤ ddof then none
  else
    match seriesMean xs with
    | none => none
    | some m =>
      some (((nonNullValues xs).map (fun x => (x - m) ^ 2)).sum /
        (((nonNullValues xs).length : ℚ) - (ddof : ℚ)))

/-- `DataSummary` from `src/data_processing.rs`. -/
structure DataSummary where
  mean : ℚ
  variance : ℚ
deriving DecidableEq, Repr

/-- The failures of `process_data`, named by the spec's taxonomy.  In the
source each is an `expect` panic: the panic at the `df.column` lookup is the
spec's `SchemaError`; the panics at `series.mean()` and `series.var(1)`
(which return `None` exactly when fewer than 2 values remain after coercion)
are the spec's `InsufficientDataError`. -/
inductive StatsError where
  | schemaError (column : String)
  | insufficientDataError
deriving DecidableEq, Repr

/-- `process_data` from `src/data_processing.rs`.  CSV reading is out of
scope (the spec delegates parsing to the tabular library), so the function
takes the already-loaded `DataFrame`.  The lookup, cast, mean and variance
steps follow the source line by line; each `expect` becomes the
corresponding `Except.error`. -/
def process_data (df : DataFrame) (column_name : String) : Except StatsError DataSummary :=
  match df.column column_name with
  | none => .error (.schemaError column_name)
  | some series =>
    let casted := castFloat64 series
    match seriesMean casted with
    | none => .error .insufficientDataError
    | some mean =>
      match seriesVar casted 1 with
      | none => .error .insufficientDataError
      | some variance => .ok { mean := mean, variance := variance }

/-- The values of the selected column that survive the coercion to
`Float64`: the originally-null cells and the non-coercible cells are gone. -/
def coercedValues (s : Series) : List ℚ :=
  nonNullValues (castFloat64 s)

/-- Arithmetic mean of a list of rationals (sum divided by count). -/
def meanOf (vs : List ℚ) : ℚ :=
  vs.sum / (vs.length : ℚ)

/-- Bessel-corrected sample variance `Σ (x_i − mean)² / (n − 1)`. -/
def sampleVarOf (vs : List ℚ) : ℚ :=
  (vs.map (fun x => (x - meanOf vs) ^ 2)).sum / ((vs.length : ℚ) - 1)

/-! ## Embedding of `src/visualization.rs` -/

/-- An axis-aligned rectangle in chart coordinates, as passed to
`plotters::Rectangle::new([(x0, y0), (x1, y1)], ...)`. -/
structure Rect where
  x0 : ℚ
  y0 : ℚ
  x1 : ℚ
  y1 : ℚ
deriving DecidableEq, Repr

/-- The two fill colors used by `create_charts`. -/
inductive FillColor where
  | red
  | blue
deriving DecidableEq, Repr

/-- One bar of the chart: a labelled, filled rectangle drawn by one
`draw_series` call. -/
structure Bar where
  label : String
  color : FillColor
  rect : Rect
deriving DecidableEq, Repr

/-- The rendered chart, abstracting the drawing commands `create_charts`
issues: the output path, the caption, the cartesian ranges passed to
`build_cartesian_2d(0..3, 0.0..max_value)`, and the bars drawn (in drawing
order).  Pixel-level SVG output is the plotting library's concern and out of
scope. -/
structure Chart where
  outputPath : String
  caption : String
  xAxisLower : Int
  xAxisUpper : Int
  yAxisLower : ℚ
  yAxisUpper : ℚ
  bars : List Bar
deriving DecidableEq, Repr

/-- The ASCII single-quote character, used by the caption format string. -/
def squote : String :=
  String.singleton (Char.ofNat 39)

/-- `create_charts` from `src/visualization.rs`, as the chart description it
draws: output path `output/{column_name}_summary_chart.svg`, caption from the
`format!` call, vertical axis `0.0..max_value` where
`max_value = summary.mean.max(summary.variance) * 1.2`, then the Mean bar
`[(1 - 0.25, 0.0), (1 + 0.25, summary.mean)]` in red and the Variance bar
`[(2 - 0.25, 0.0), (2 + 0.25, summary.variance)]` in blue. -/
def create_charts (summary : DataSummary) (column_name : String) : Chart :=
  let output_path := "output/" ++ column_name ++ "_summary_chart.svg"
  let max_value := max summary.mean summary.variance * 1.2
  { outputPath := output_path
    caption := "Statistical Summary of " ++ squote ++ column_name ++ squote
    xAxisLower := 0
    xAxisUpper := 3
    yAxisLower := 0.0
    yAxisUpper := max_value
    bars :=
      [ { label := "Mean", color := .red,
          rect := { x0 := 1 - 0.25, y0 := 0.0, x1 := 1 + 0.25, y1 := summary.mean } },
        { label := "Variance", color := .blue,
          rect := { x0 := 2 - 0.25, y0 := 0.0, x1 := 2 + 0.25, y1 := summary.variance } } ] }

/-- Modelled from the spec: the repository has no `main` under `src/`; the
spec's data flow ("caller → StatsComputer.process(table, column) →
DataSummary → ChartRenderer.render(DataSummary, column) → image file") calls
the two components sequentially, and the abort-on-error discipline means a
failed `process_data` reaches `create_charts` with nothing — no chart is
produced. -/
def pipeline (df : DataFrame) (column_name : String) : Except StatsError Chart :=
  (process_data df column_name).map (fun summary => create_charts summary column_name)

/-! ## Concrete tables used by counterexamples and witnesses -/

/-- The `score` column holding a non-coercible text value `"abc"` next to the
numeric values 1, 2, 3. -/
def mixedSeries : Series :=
  { name := "score",
    values := [some (.str "abc"), some (.int 1), some (.int 2), some (.int 3)] }

/-- A one-column table whose `score` column contains a non-coercible value. -/
def mixedDF : DataFrame :=
  { columns := [mixedSeries] }

/-- The `x` column `[1, 2, 3, 4, 5]` from the spec's worked example. -/
def fiveSeries : Series :=
  { name := "x",
    values := [some (.int 1), some (.int 2), some (.int 3), some (.int 4), some (.int 5)] }

/-- A one-column table holding `fiveSeries`. -/
def fiveDF : DataFrame :=
  { columns := [fiveSeries] }

/-- A column holding a single numeric value. -/
def singletonSeries : Series :=
  { name := "solo", values := [some (.int 7)] }

/-- A one-column table holding `singletonSeries`. -/
def singletonDF : DataFrame :=
  { columns := [singletonSeries] }

/-- A constant column: three copies of the float value 2. -/
def constSeries : Series :=
  { name := "c", values := List.replicate 3 (some (.float 2)) }

/-- A one-column table holding `constSeries`. -/
def constDF : DataFrame :=
  { columns := [constSeries] }

/-- A column with null entries interleaved with two numeric values. -/
def nullSeries : Series :=
  { name := "n", values := [some (.int 1), none, some (.int 2), none] }

/-- A one-column table holding `nullSeries`. -/
def nullDF : DataFrame :=
  { columns := [nullSeries] }

/-! ## General lemmas about `process_data` -/

/-- When the column is found and at least two values survive coercion,
`process_data` succeeds with the arithmetic mean and the Bessel-corrected
sample variance of the coerced values. -/
theorem process_data_eq_ok (df : DataFrame) (col : String) (s : Series)
    (hcol : df.column col = some s)
    (h2 : 2 ≤ (coercedValues s).length) :
    process_data df col =
      Except.ok { mean := meanOf (coercedValues s),
                  variance := sampleVarOf (coercedValues s) } := by
  simp only [coercedValues] at h2
  have h0 : ¬ (nonNullValues (castFloat64 s)).length = 0 := by omega
  have h1 : ¬ (nonNullValues (castFloat64 s)).length ≤ 1 := by omega
  unfold process_data
  rw [hcol]
  simp only [seriesMean, seriesVar, if_neg h0, if_neg h1, meanOf, sampleVarOf, coercedValues,
    Nat.cast_one]

/-- When the column is found but fewer than two values survive coercion,
`process_data` fails: with zero values `series.mean()` is `None`, with one
value `series.var(1)` is `None`, and either way the corresponding `expect`
panic (`InsufficientDataError` in the spec's taxonomy) fires. -/
theorem process_data_error_of_lt_two (df : DataFrame) (col : String) (s : Series)
    (hcol : df.column col = some s)
    (hlt : (coercedValues s).length < 2) :
    process_data df col = Except.error StatsError.insufficientDataError := by
  simp only [coercedValues] at hlt
  unfold process_data
  rw [hcol]
  by_cases h0 : (nonNullValues (castFloat64 s)).length = 0
  · simp only [seriesMean, if_pos h0]
  · have h1 : (nonNullValues (castFloat64 s)).length ≤ 1 := by omega
    simp only [seriesMean, seriesVar, if_neg h0, if_pos h1]

/-- When the column is absent, `process_data` fails at the lookup with the
spec's `SchemaError`. -/
theorem process_data_error_of_not_found (df : DataFrame) (col : String)
    (hcol : df.column col = none) :
    process_data df col = Except.error (StatsError.schemaError col) := by
  unfold process_data
  rw [hcol]

/-- The sample variance of a list with at least two elements is nonnegative:
a quotient of a sum of squares by the positive denominator `n − 1`. -/
theorem sampleVarOf_nonneg (vs : List ℚ) (h2 : 2 ≤ vs.length) :
    0 ≤ sampleVarOf vs := by
  unfold sampleVarOf
  apply div_nonneg
  · apply List.sum_nonneg
    intro x hx
    simp only [List.mem_map] at hx
    obtain ⟨y, -, rfl⟩ := hx
    positivity
  · have hc : (2 : ℚ) ≤ (vs.length : ℚ) := by exact_mod_cast h2
    linarith

/-- `filterMap id` flattens a list of `n` copies of `some v` to `n` copies
of `v`. -/
theorem filterMap_id_replicate_some (n : ℕ) (v : ℚ) :
    (List.replicate n (some v)).filterMap id = List.replicate n v := by
  induction n with
  | zero => rfl
  | succ n ih => simp [List.replicate_succ, ih]

/-- The mean of `n` copies of `v` is `v` (for `n ≠ 0`). -/
theorem meanOf_replicate (n : ℕ) (v : ℚ) (hn : n ≠ 0) :
    meanOf (List.replicate n v) = v := by
  unfold meanOf
  rw [List.sum_replicate, List.length_replicate, nsmul_eq_mul]
  have hq : (n : ℚ) ≠ 0 := Nat.cast_ne_zero.mpr hn
  field_simp

/-- The sample variance of `n` copies of `v` is `0` (for `n ≠ 0`). -/
theorem sampleVarOf_replicate (n : ℕ) (v : ℚ) (hn : n ≠ 0) :
    sampleVarOf (List.replicate n v) = 0 := by
  unfold sampleVarOf
  rw [meanOf_replicate n v hn, List.map_replicate]
  simp

/-- Under the hypothesis that every non-null cell of `l` coerces, the number
of values that survive `castFloat64` equals the number of non-null cells. -/
theorem coerced_length_eq_countP (l : List (Option RawValue))
    (h : ∀ c ∈ l, c.isSome → ((c.bind castValue).isSome)) :
    (nonNullValues (l.map (fun c => c.bind castValue))).length =
      l.countP (fun c => c.isSome) := by
  induction l with
  | nil => rfl
  | cons a t ih =>
    have ht : ∀ c ∈ t, c.isSome → ((c.bind castValue).isSome) :=
      fun c hc => h c (List.mem_cons_of_mem a hc)
    cases a with
    | none =>
      simpa [nonNullValues, List.countP_cons] using ih ht
    | some v =>
      have hs : ((some v).bind castValue).isSome :=
        h (some v) (List.mem_cons_self _ _) rfl
      obtain ⟨q, hq⟩ := Option.isSome_iff_exists.mp hs
      simp only [Option.some_bind] at hq
      have ih' := ih ht
      simp only [nonNullValues, List.filterMap_map, Function.id_comp] at ih'
      simp [nonNullValues, List.countP_cons, hq, Option.some_bind, ih']

/-- A list with a `none` entry has strictly fewer `some` entries than its
length. -/
theorem countP_isSome_lt_length (l : List (Option RawValue))
    (h : none ∈ l) : l.countP (fun c => c.isSome) < l.length := by
  have hle : l.countP (fun c => c.isSome) ≤ l.length := List.countP_le_length _
  rcases lt_or_eq_of_le hle with hlt | heq
  · exact hlt
  · exfalso
    have hall := List.countP_eq_length.mp heq
    have := hall none h
    simp at this

/-- Sanity check against the spec's worked example: the column `[1,2,3,4,5]`
yields `mean = 3` and sample variance `5/2`. -/
theorem spec_example_five :
    process_data fiveDF "x" = Except.ok { mean := 3, variance := 5 / 2 } := by
  rw [process_data_eq_ok fiveDF "x" fiveSeries (by decide) (by decide)]
  have hcv : coercedValues fiveSeries = [1, 2, 3, 4, 5] := by decide
  rw [hcv]
  norm_num [meanOf, sampleVarOf]

/-! ## Claims -/

/-- C1 counterexample: the claim says a column holding a value that cannot be
coerced to `Float64` makes `process_data` fail with `SchemaError`.  It does
not: polars' non-strict cast turns the non-coercible `"abc"` into null, and
`process_data` succeeds on `["abc", 1, 2, 3]`, computing mean 2 and variance
1 over the remaining three values — exactly the silent skipping the claim
rules out. -/
theorem c1_counterexample :
    some (RawValue.str "abc") ∈ mixedSeries.values ∧
    castValue (RawValue.str "abc") = none ∧
    mixedDF.column "score" = some mixedSeries ∧
    process_data mixedDF "score" = Except.ok { mean := 2, variance := 1 } := by
  refine ⟨by decide, rfl, by decide, ?_⟩
  rw [process_data_eq_ok mixedDF "score" mixedSeries (by decide) (by decide)]
  have hcv : coercedValues mixedSeries = [1, 2, 3] := by decide
  rw [hcv]
  norm_num [meanOf, sampleVarOf]

/-- C1 (amended): when the selected column exists and contains a value that
cannot be coerced to `Float64`, `process_data` does not fail with a
`SchemaError`; the non-strict cast turns the non-coercible value into null,
it is silently skipped, and (provided at least 2 values coerce) the
statistics are computed over the remaining coercible values only. -/
theorem c1_amended_non_coercible_skipped (df : DataFrame) (col : String)
    (s : Series) (v : RawValue)
    (hcol : df.column col = some s)
    (_hmem : some v ∈ s.values)
    (_hbad : castValue v = none)
    (h2 : 2 ≤ (coercedValues s).length) :
    process_data df col =
      Except.ok { mean := meanOf (coercedValues s),
                  variance := sampleVarOf (coercedValues s) } :=
  process_data_eq_ok df col s hcol h2

/-- C1 (amended) witness: the amended claim instantiated on the table whose
`score` column is `["abc", 1, 2, 3]`. -/
theorem c1_amended_non_coercible_skipped_witness :
    process_data mixedDF "score" =
      Except.ok { mean := meanOf (coercedValues mixedSeries),
                  variance := sampleVarOf (coercedValues mixedSeries) } :=
  c1_amended_non_coercible_skipped mixedDF "score" mixedSeries (RawValue.str "abc")
    (by decide) (by decide) (by decide) (by decide)

/-- C2: when the selected column exists but fewer than 2 values survive the
coercion (n = 0 or n = 1), `process_data` fails — `series.mean()` returns
`None` for n = 0 and `series.var(1)` returns `None` for n = 1, and the
corresponding `expect` panic (the spec's `InsufficientDataError`) fires
instead of a `DataSummary` being returned. -/
theorem c2_insufficient_data (df : DataFrame) (col : String) (s : Series)
    (hcol : df.column col = some s)
    (hlt : (coercedValues s).length < 2) :
    process_data df col = Except.error StatsError.insufficientDataError :=
  process_data_error_of_lt_two df col s hcol hlt

/-- C2 witness: a column with the single value 7 fails with
`InsufficientDataError`. -/
theorem c2_insufficient_data_witness :
    process_data singletonDF "solo" = Except.error StatsError.insufficientDataError :=
  c2_insufficient_data singletonDF "solo" singletonSeries (by decide) (by decide)

/-- C3: requesting a column that is not in the table fails with
`SchemaError`, and the pipeline therefore produces no chart: the failed
StatsComputer call never reaches ChartRenderer. -/
theorem c3_missing_column (df : DataFrame) (col : String)
    (hcol : df.column col = none) :
    process_data df col = Except.error (StatsError.schemaError col) ∧
    pipeline df col = Except.error (StatsError.schemaError col) ∧
    ∀ chart : Chart, pipeline df col ≠ Except.ok chart := by
  have hp := process_data_error_of_not_found df col hcol
  refine ⟨hp, by simp [pipeline, hp, Except.map], ?_⟩
  intro chart hch
  simp [pipeline, hp, Except.map] at hch

/-- C3 witness: requesting the absent column `"missing"` of the five-value
table fails with `SchemaError` and yields no chart. -/
theorem c3_missing_column_witness :
    process_data fiveDF "missing" = Except.error (StatsError.schemaError "missing") ∧
    pipeline fiveDF "missing" = Except.error (StatsError.schemaError "missing") ∧
    ∀ chart : Chart, pipeline fiveDF "missing" ≠ Except.ok chart :=
  c3_missing_column fiveDF "missing" (by decide)

/-- C4: on a column with n ≥ 2 coerced values, `process_data` returns the
arithmetic mean (sum of coerced values divided by n) and the
Bessel-corrected sample variance (the sum of squared deviations from the
mean, divided by n − 1). -/
theorem c4_mean_variance_formula (df : DataFrame) (col : String) (s : Series)
    (hcol : df.column col = some s)
    (h2 : 2 ≤ (coercedValues s).length) :
    ∃ summary : DataSummary,
      process_data df col = Except.ok summary ∧
      summary.mean = (coercedValues s).sum / ((coercedValues s).length : ℚ) ∧
      summary.variance =
        ((coercedValues s).map (fun x => (x - summary.mean) ^ 2)).sum /
          (((coercedValues s).length : ℚ) - 1) :=
  ⟨_, process_data_eq_ok df col s hcol h2, rfl, rfl⟩

/-- C4 witness: the formulas instantiated on the spec's example column
`[1, 2, 3, 4, 5]`. -/
theorem c4_mean_variance_formula_witness :
    ∃ summary : DataSummary,
      process_data fiveDF "x" = Except.ok summary ∧
      summary.mean = (coercedValues fiveSeries).sum / ((coercedValues fiveSeries).length : ℚ) ∧
      summary.variance =
        ((coercedValues fiveSeries).map (fun x => (x - summary.mean) ^ 2)).sum /
          (((coercedValues fiveSeries).length : ℚ) - 1) :=
  c4_mean_variance_formula fiveDF "x" fiveSeries (by decide) (by decide)

/-- C5: on a column of n ≥ 2 identical values v, `process_data` returns
`mean = v` and `variance = 0`. -/
theorem c5_constant_column (df : DataFrame) (col : String) (s : Series)
    (n : ℕ) (v : ℚ)
    (hcol : df.column col = some s)
    (hvals : s.values = List.replicate n (some (RawValue.float v)))
    (h2 : 2 ≤ n) :
    process_data df col = Except.ok { mean := v, variance := 0 } := by
  have hn : n ≠ 0 := by omega
  have hcv : coercedValues s = List.replicate n v := by
    simp only [coercedValues, castFloat64, hvals, List.map_replicate, Option.some_bind,
      castValue, nonNullValues]
    exact filterMap_id_replicate_some n v
  have h2' : 2 ≤ (coercedValues s).length := by
    rw [hcv, List.length_replicate]; omega
  rw [process_data_eq_ok df col s hcol h2', hcv,
    meanOf_replicate n v hn, sampleVarOf_replicate n v hn]

/-- C5 witness: three copies of the value 2 give `mean = 2` and
`variance = 0`. -/
theorem c5_constant_column_witness :
    process_data constDF "c" = Except.ok { mean := 2, variance := 0 } :=
  c5_constant_column constDF "c" constSeries 3 2 (by decide) rfl (by decide)

/-- C6: whenever `process_data` succeeds, the variance field of the returned
`DataSummary` is nonnegative (a sum of squares divided by the positive
n − 1). -/
theorem c6_variance_nonneg (df : DataFrame) (col : String) (summary : DataSummary)
    (h : process_data df col = Except.ok summary) :
    0 ≤ summary.variance := by
  cases hcol : df.column col with
  | none =>
    rw [process_data_error_of_not_found df col hcol] at h
    cases h
  | some s =>
    by_cases h2 : 2 ≤ (coercedValues s).length
    · rw [process_data_eq_ok df col s hcol h2] at h
      injection h with h
      rw [← h]
      exact sampleVarOf_nonneg (coercedValues s) h2
    · rw [process_data_error_of_lt_two df col s hcol (by omega)] at h
      cases h

/-- C6 witness: the invariant instantiated on the summary computed from
`[1, 2, 3, 4, 5]`. -/
theorem c6_variance_nonneg_witness :
    0 ≤ (DataSummary.mk (meanOf (coercedValues fiveSeries))
          (sampleVarOf (coercedValues fiveSeries))).variance :=
  c6_variance_nonneg fiveDF "x"
    (DataSummary.mk (meanOf (coercedValues fiveSeries)) (sampleVarOf (coercedValues fiveSeries)))
    (process_data_eq_ok fiveDF "x" fiveSeries (by decide) (by decide))

/-- C7: the vertical axis of the rendered chart spans from 0 to exactly
`1.2 × max(mean, variance)` — the range `0.0..max_value` with
`max_value = summary.mean.max(summary.variance) * 1.2`. -/
theorem c7_axis_scaling (summary : DataSummary) (col : String) :
    (create_charts summary col).yAxisLower = 0 ∧
    (create_charts summary col).yAxisUpper = 1.2 * max summary.mean summary.variance := by
  constructor
  · norm_num [create_charts]
  · show max summary.mean summary.variance * 1.2 = 1.2 * max summary.mean summary.variance
    ring

/-- C8: exactly two bars are drawn — the red Mean bar spanning
`[1 − 0.25, 1 + 0.25]` horizontally and `[0, summary.mean]` vertically, and
the blue Variance bar spanning `[2 − 0.25, 2 + 0.25]` horizontally and
`[0, summary.variance]` vertically. -/
theorem c8_two_bars (summary : DataSummary) (col : String) :
    (create_charts summary col).bars =
      [ { label := "Mean", color := FillColor.red,
          rect := { x0 := 1 - 0.25, y0 := 0.0, x1 := 1 + 0.25, y1 := summary.mean } },
        { label := "Variance", color := FillColor.blue,
          rect := { x0 := 2 - 0.25, y0 := 0.0, x1 := 2 + 0.25, y1 := summary.variance } } ] ∧
    (create_charts summary col).bars.length = 2 :=
  ⟨rfl, rfl⟩

/-- C9: `process_data` is deterministic — it is a pure function of the
loaded table and the column name (the source reads no clock, randomness or
other ambient state), so two invocations on the same input return identical
`DataSummary` values. -/
theorem c9_deterministic (df₁ df₂ : DataFrame) (col₁ col₂ : String)
    (hdf : df₁ = df₂) (hcol : col₁ = col₂) :
    process_data df₁ col₁ = process_data df₂ col₂ := by
  rw [hdf, hcol]

/-- C9 witness: determinism instantiated on the five-value table. -/
theorem c9_deterministic_witness :
    process_data fiveDF "x" = process_data fiveDF "x" :=
  c9_deterministic fiveDF fiveDF "x" "x" rfl rfl

/-- C10 (implicit): a column with null entries alongside at least 2 numeric
values does not make `process_data` fail — the statistics are computed over
the non-null values only, with n equal to the number of non-null values,
which is strictly smaller than the column length (missing entries are
excluded, not counted). -/
theorem c10_nulls_skipped (df : DataFrame) (col : String) (s : Series)
    (hcol : df.column col = some s)
    (hnull : none ∈ s.values)
    (hcoerce : ∀ c ∈ s.values, c.isSome → ((c.bind castValue).isSome))
    (h2 : 2 ≤ (coercedValues s).length) :
    process_data df col =
      Except.ok { mean := meanOf (coercedValues s),
                  variance := sampleVarOf (coercedValues s) } ∧
    (coercedValues s).length = s.values.countP (fun c => c.isSome) ∧
    s.values.countP (fun c => c.isSome) < s.values.length := by
  refine ⟨process_data_eq_ok df col s hcol h2, ?_,
    countP_isSome_lt_length s.values hnull⟩
  exact coerced_length_eq_countP s.values hcoerce

/-- C10 witness: the column `[1, null, 2, null]` succeeds with the
statistics of `[1, 2]` and n = 2 out of 4 cells. -/
theorem c10_nulls_skipped_witness :
    process_data nullDF "n" =
      Except.ok { mean := meanOf (coercedValues nullSeries),
                  variance := sampleVarOf (coercedValues nullSeries) } ∧
    (coercedValues nullSeries).length = nullSeries.values.countP (fun c => c.isSome) ∧
    nullSeries.values.countP (fun c => c.isSome) < nullSeries.values.length :=
  c10_nulls_skipped nullDF "n" nullSeries (by decide) (by decide) (by decide) (by decide)

end Pipeline
